import Mathlib

/-
Verification development for the FCND-Motion-Planning controller
(`motion_planning.py`).  The flight-phase state machine, its telemetry
callbacks, the coordinate transforms and the waypoint generator are
shallowly embedded below; floating-point scalars are modelled as exact
rationals, and the external planning utilities (`planning_utils.py`,
which is not part of the sources) are abstracted as a planning outcome
parameter.
-/

namespace MotionPlanningPy

/-- Flight phases, from the `States` enum of `motion_planning.py`. -/
inductive States
  | MANUAL
  | ARMING
  | TAKEOFF
  | WAYPOINT
  | LANDING
  | DISARMING
  | PLANNING
  deriving DecidableEq, Repr

/-- Headings are produced either as the literal `0` assigned to the first
waypoint or as a call `np.arctan2(dy, dx)`.  Since `np.arctan2` is an
external numpy function, it is kept symbolic: a heading is either the
literal zero or an unevaluated `atan2` applied to the two integer
displacement arguments appearing in `path_to_waypoints`. -/
inductive Heading
  | zero
  | atan2 (dy dx : ℤ)
  deriving DecidableEq, Repr

/-- A waypoint `[north, east, altitude, heading]` as built by
`path_to_waypoints` and consumed by `waypoint_transition`. -/
structure Waypoint where
  north : ℚ
  east : ℚ
  alt : ℚ
  heading : Heading
  deriving DecidableEq, Repr

instance : Inhabited Waypoint := ⟨⟨0, 0, 0, Heading.zero⟩⟩

/-- Runtime errors the Python code can raise on the modelled paths:
`IndexError` from `self.waypoints.pop(0)` on an empty list, and a failure
escaping from the planning pipeline inside `plan_path`. -/
inductive PyErr
  | indexError
  | planningFailure
  deriving DecidableEq, Repr

/-- Commands sent to the vehicle / simulator connection, in emission order.
They correspond to `self.arm()`, `self.take_control()`, `self.takeoff(...)`,
`self.cmd_position(...)`, `self.land()`, `self.disarm()`,
`self.release_control()`, `self.stop()` and `send_waypoints()`. -/
inductive Cmd
  | arm
  | takeControl
  | takeoff (alt : ℚ)
  | cmdPosition (north east alt : ℚ) (heading : Heading)
  | land
  | disarm
  | releaseControl
  | stop
  | sendWaypoints (wps : List Waypoint)
  deriving DecidableEq, Repr

/-- The mutable attributes of the `MotionPlanning` drone object that the
embedded code reads or writes: the flight phase, the mission flag, the
target position (a 4-component waypoint once a waypoint has been popped;
the heading slot starts at the harmless literal zero), the waypoint queue,
and the telemetry attributes kept up to date by the connection
(`local_position`, `local_velocity`, global altitude and home altitude,
`armed`, `guided`).  The `error` field records a raised Python exception;
it is `none` while the program is running normally. -/
structure DroneState where
  flight_state : States
  in_mission : Bool
  target_position : Waypoint
  waypoints : List Waypoint
  lp_north : ℚ
  lp_east : ℚ
  lp_down : ℚ
  lv_north : ℚ
  lv_east : ℚ
  lv_down : ℚ
  global_alt : ℚ
  global_home_alt : ℚ
  armed : Bool
  guided : Bool
  error : Option PyErr
  deriving DecidableEq, Repr

/-- Initial state, from `MotionPlanning.__init__`: `target_position`
all zeros, `waypoints = []`, `in_mission = True`,
`flight_state = States.MANUAL`; telemetry attributes start at zero /
false as in the `Drone` base class. -/
def initState : DroneState :=
  { flight_state := States.MANUAL
    in_mission := true
    target_position := ⟨0, 0, 0, Heading.zero⟩
    waypoints := []
    lp_north := 0, lp_east := 0, lp_down := 0
    lv_north := 0, lv_east := 0, lv_down := 0
    global_alt := 0, global_home_alt := 0
    armed := false, guided := false
    error := none }

/-- Outcome of the planning pipeline invoked by `plan_path`.  The pipeline
(`create_grid`, `a_star`, `path_prune`, `path_simplify`,
`path_to_waypoints`) lives in `planning_utils.py`, outside the given
sources, and reads the obstacle file; it is abstracted as either the
waypoint list it produces or a failure (an exception escaping the
pipeline, e.g. no path found or malformed obstacle data). -/
inductive PlanOutcome
  | success (wps : List Waypoint)
  | failure
  deriving DecidableEq, Repr

/-- TARGET_ALTITUDE constant of `motion_planning.py`. -/
def TARGET_ALTITUDE : ℚ := 5

/-- SAFETY_DISTANCE constant of `motion_planning.py`. -/
def SAFETY_DISTANCE : ℚ := 5

/-- Squared Euclidean norm of a 2-vector.  The code compares
`np.linalg.norm(v) < c` for `c > 0`; since both sides are non-negative
this is equivalent to `v.v < c*c`, which is the form used here to stay
inside the rationals. -/
def normSq (a b : ℚ) : ℚ := a * a + b * b

/-- Python `int(b)` for a `bool`. -/
def pyBoolInt (b : Bool) : ℤ := if b then 1 else 0

/-- Python bitwise complement `~x` on an integer. -/
def pyInvert (x : ℤ) : ℤ := -1 - x

/-- The guard of the `DISARMING` branch of `state_callback`, literally
`~self.armed & ~self.guided`: Python bitwise complement and bitwise
conjunction applied to the two booleans, the resulting integer being
used for its truthiness (non-zero). -/
def disarm_guard (armed guided : Bool) : Bool :=
  Int.land (pyInvert (pyBoolInt armed)) (pyInvert (pyBoolInt guided)) != 0

/-- Embedding of `arming_transition`. -/
def arming_transition (s : DroneState) : DroneState × List Cmd :=
  ({ s with flight_state := States.ARMING }, [Cmd.arm, Cmd.takeControl])

/-- Embedding of `takeoff_transition`: `self.takeoff(self.target_position[2])`. -/
def takeoff_transition (s : DroneState) : DroneState × List Cmd :=
  ({ s with flight_state := States.TAKEOFF }, [Cmd.takeoff s.target_position.alt])

/-- Embedding of `waypoint_transition`: set the phase to `WAYPOINT`, then
`self.target_position = self.waypoints.pop(0)` — which raises `IndexError`
when the queue is empty (the phase assignment on line 97 has already
happened by then) — and command the popped position. -/
def waypoint_transition (s : DroneState) : DroneState × List Cmd :=
  let s1 := { s with flight_state := States.WAYPOINT }
  match s1.waypoints with
  | [] => ({ s1 with error := some PyErr.indexError }, [])
  | w :: rest =>
      ({ s1 with waypoints := rest, target_position := w },
        [Cmd.cmdPosition w.north w.east w.alt w.heading])

/-- Embedding of `landing_transition`. -/
def landing_transition (s : DroneState) : DroneState × List Cmd :=
  ({ s with flight_state := States.LANDING }, [Cmd.land])

/-- Embedding of `disarming_transition`. -/
def disarming_transition (s : DroneState) : DroneState × List Cmd :=
  ({ s with flight_state := States.DISARMING }, [Cmd.disarm, Cmd.releaseControl])

/-- Embedding of `manual_transition`: stop, clear the mission flag. -/
def manual_transition (s : DroneState) : DroneState × List Cmd :=
  ({ s with flight_state := States.MANUAL, in_mission := false }, [Cmd.stop])

/-- Embedding of `plan_path`'s controller-visible behaviour.  The method
first sets `flight_state = PLANNING` and `target_position[2] =
TARGET_ALTITUDE`, sets the home position (altitude 0), and then runs the
planning pipeline.  On success the resulting waypoint list is stored and
sent to the simulator; on a pipeline failure the exception propagates,
leaving the state mutations made so far in place, with no recovery code
anywhere in `plan_path` or its callers. -/
def plan_path (plan : PlanOutcome) (s : DroneState) : DroneState × List Cmd :=
  let s1 := { s with
    flight_state := States.PLANNING
    target_position := { s.target_position with alt := TARGET_ALTITUDE }
    global_home_alt := 0 }
  match plan with
  | PlanOutcome.success wps =>
      ({ s1 with waypoints := wps }, [Cmd.sendWaypoints wps])
  | PlanOutcome.failure =>
      ({ s1 with error := some PyErr.planningFailure }, [])

/-- Embedding of `local_position_callback`.  The guards are the source's
`-1.0 * self.local_position[2] > 0.95 * self.target_position[2]` (with
`0.95` the exact rational `19/20`), the horizontal norm comparison in
squared form, `abs(self.target_position[2] - (-self.local_position[2])) < 2.0`,
`len(self.waypoints) > 0`, and the squared form of
`np.linalg.norm(self.local_velocity[0:2]) < 1.0`. -/
def local_position_callback (s : DroneState) : DroneState × List Cmd :=
  if s.flight_state = States.TAKEOFF then
    if (19/20) * s.target_position.alt < -1 * s.lp_down then
      waypoint_transition s
    else (s, [])
  else if s.flight_state = States.WAYPOINT then
    if normSq (s.target_position.north - s.lp_north)
          (s.target_position.east - s.lp_east) < 3 * 3
        ∧ |s.target_position.alt - (-s.lp_down)| < 2 then
      if s.waypoints.length > 0 then
        waypoint_transition s
      else if normSq s.lv_north s.lv_east < 1 * 1 then
        landing_transition s
      else (s, [])
    else (s, [])
  else (s, [])

/-- Embedding of `velocity_callback`: in `LANDING`, when
`self.global_position[2] - self.global_home[2] < 0.1` and
`abs(self.local_position[2]) < 0.01`, run `disarming_transition`. -/
def velocity_callback (s : DroneState) : DroneState × List Cmd :=
  if s.flight_state = States.LANDING then
    if s.global_alt - s.global_home_alt < 1/10 then
      if |s.lp_down| < 1/100 then disarming_transition s
      else (s, [])
    else (s, [])
  else (s, [])

/-- Embedding of `state_callback`, guarded by `self.in_mission` and
branching on the flight phase exactly as the source's `elif` chain. -/
def state_callback (plan : PlanOutcome) (s : DroneState) : DroneState × List Cmd :=
  if s.in_mission then
    if s.flight_state = States.MANUAL then
      arming_transition s
    else if s.flight_state = States.ARMING then
      if s.armed then plan_path plan s else (s, [])
    else if s.flight_state = States.PLANNING then
      takeoff_transition s
    else if s.flight_state = States.DISARMING then
      if disarm_guard s.armed s.guided then manual_transition s else (s, [])
    else (s, [])
  else (s, [])

/-- Telemetry events.  The connection first updates the drone attribute
carried by the message and then notifies the registered callback
(`MsgID.LOCAL_POSITION`, `MsgID.LOCAL_VELOCITY`, `MsgID.STATE`); global
position messages update the attribute only, since no callback is
registered for them. -/
inductive Event
  | localPosition (north east down : ℚ)
  | velocity (vn ve vd : ℚ)
  | globalPosition (alt : ℚ)
  | stateMsg (armed guided : Bool)
  deriving DecidableEq, Repr

/-- One telemetry event processed by the controller: update the attribute,
then run the registered callback.  A state whose `error` is set models a
program that has crashed on an uncaught exception; it processes nothing
further. -/
def step (plan : PlanOutcome) (e : Event) (s : DroneState) : DroneState × List Cmd :=
  if s.error.isSome then (s, [])
  else
    match e with
    | Event.localPosition n ea d =>
        local_position_callback { s with lp_north := n, lp_east := ea, lp_down := d }
    | Event.velocity vn ve vd =>
        velocity_callback { s with lv_north := vn, lv_east := ve, lv_down := vd }
    | Event.globalPosition a =>
        ({ s with global_alt := a }, [])
    | Event.stateMsg a g =>
        state_callback plan { s with armed := a, guided := g }

/-- Final controller state after a sequence of telemetry events. -/
def runState (plan : PlanOutcome) (s : DroneState) : List Event → DroneState
  | [] => s
  | e :: evs => runState plan (step plan e s).1 evs

/-- Python `int(q)` applied to a float/rational: truncation toward zero. -/
def pyInt (q : ℚ) : ℤ := Int.tdiv q.num q.den

/-- Embedding of `MotionPlanning.grid_to_local`: grid indices plus the
grid offsets, altitude negated into the down coordinate. -/
def grid_to_local (north_offset east_offset : ℚ) (c : ℤ × ℤ × ℤ) : ℚ × ℚ × ℚ :=
  ((c.1 : ℚ) + north_offset, (c.2.1 : ℚ) + east_offset, -(c.2.2 : ℚ))

/-- Embedding of `MotionPlanning.local_to_grid`: offsets subtracted and
each coordinate passed through Python `int(...)`. -/
def local_to_grid (north_offset east_offset : ℚ) (p : ℚ × ℚ × ℚ) : ℤ × ℤ × ℤ :=
  (pyInt (p.1 - north_offset), pyInt (p.2.1 - east_offset), pyInt (-p.2.2))

/-- Embedding of `MotionPlanning.path_to_waypoints`: for each index `i`
of the path, the waypoint is `[p[0] + north_offset, p[1] + east_offset,
p[2], orientation]` where `orientation` is the literal `0` when `i = 0`
and `np.arctan2(p[1] - p_prev[1], p[0] - p_prev[0])` with
`p_prev = path[i-1]` otherwise. -/
def path_to_waypoints (north_offset east_offset : ℤ)
    (path : List (ℤ × ℤ × ℤ)) : List Waypoint :=
  (List.range path.length).map fun i =>
    let p := path.getD i (0, 0, 0)
    let orientation : Heading :=
      if i > 0 then
        let p_prev := path.getD (i - 1) (0, 0, 0)
        Heading.atan2 (p.2.1 - p_prev.2.1) (p.1 - p_prev.1)
      else Heading.zero
    { north := ((p.1 + north_offset : ℤ) : ℚ)
      east := ((p.2.1 + east_offset : ℤ) : ℚ)
      alt := (p.2.2 : ℚ)
      heading := orientation }

/-- A controller state sitting in the `DISARMING` phase with the mission
flag still set, as produced by `disarming_transition`. -/
def disarmingState : DroneState :=
  { initState with flight_state := States.DISARMING }

/-- Controller state used to refute the non-strict takeoff threshold of
C5: in `TAKEOFF` with target altitude 20 and a non-empty waypoint
queue. -/
def c5State : DroneState :=
  { initState with
      flight_state := States.TAKEOFF,
      target_position := ⟨0, 0, 20, Heading.zero⟩,
      waypoints := [⟨1, 1, 5, Heading.zero⟩] }

/-- State after the connection stores a local-position message, before
`local_position_callback` runs. -/
def setLocalPosition (s : DroneState) (n ea d : ℚ) : DroneState :=
  { s with lp_north := n, lp_east := ea, lp_down := d }

/-- State after the connection stores a local-velocity message, before
`velocity_callback` runs. -/
def setLocalVelocity (s : DroneState) (vn ve vd : ℚ) : DroneState :=
  { s with lv_north := vn, lv_east := ve, lv_down := vd }

/-- State after the connection stores a vehicle-status message, before
`state_callback` runs. -/
def setStatus (s : DroneState) (a g : Bool) : DroneState :=
  { s with armed := a, guided := g }

/-- One-event transition relation of the controller, one constructor per
branch of the three registered callbacks of `motion_planning.py` (plus
the attribute-only global-position message and the crashed absorbing
case).  This is the state machine read off the code's branch structure;
it is proved to agree with the functional embedding `step` and hence to
be deterministic. -/
inductive StepRel (plan : PlanOutcome) : Event → DroneState → DroneState × List Cmd → Prop
  | crashed (e : Event) (s : DroneState) :
      s.error.isSome = true →
      StepRel plan e s (s, [])
  | takeoffReached (s : DroneState) (n ea d : ℚ) :
      s.error = none → s.flight_state = States.TAKEOFF →
      (19/20) * s.target_position.alt < -1 * d →
      StepRel plan (Event.localPosition n ea d) s
        (waypoint_transition (setLocalPosition s n ea d))
  | takeoffWaiting (s : DroneState) (n ea d : ℚ) :
      s.error = none → s.flight_state = States.TAKEOFF →
      ¬ (19/20) * s.target_position.alt < -1 * d →
      StepRel plan (Event.localPosition n ea d) s (setLocalPosition s n ea d, [])
  | waypointPop (s : DroneState) (n ea d : ℚ) :
      s.error = none → s.flight_state = States.WAYPOINT →
      normSq (s.target_position.north - n) (s.target_position.east - ea) < 3 * 3 →
      |s.target_position.alt - (-d)| < 2 →
      s.waypoints.length > 0 →
      StepRel plan (Event.localPosition n ea d) s
        (waypoint_transition (setLocalPosition s n ea d))
  | waypointLand (s : DroneState) (n ea d : ℚ) :
      s.error = none → s.flight_state = States.WAYPOINT →
      normSq (s.target_position.north - n) (s.target_position.east - ea) < 3 * 3 →
      |s.target_position.alt - (-d)| < 2 →
      ¬ s.waypoints.length > 0 →
      normSq s.lv_north s.lv_east < 1 * 1 →
      StepRel plan (Event.localPosition n ea d) s
        (landing_transition (setLocalPosition s n ea d))
  | waypointFast (s : DroneState) (n ea d : ℚ) :
      s.error = none → s.flight_state = States.WAYPOINT →
      normSq (s.target_position.north - n) (s.target_position.east - ea) < 3 * 3 →
      |s.target_position.alt - (-d)| < 2 →
      ¬ s.waypoints.length > 0 →
      ¬ normSq s.lv_north s.lv_east < 1 * 1 →
      StepRel plan (Event.localPosition n ea d) s (setLocalPosition s n ea d, [])
  | waypointFarHorizontal (s : DroneState) (n ea d : ℚ) :
      s.error = none → s.flight_state = States.WAYPOINT →
      ¬ normSq (s.target_position.north - n) (s.target_position.east - ea) < 3 * 3 →
      StepRel plan (Event.localPosition n ea d) s (setLocalPosition s n ea d, [])
  | waypointFarVertical (s : DroneState) (n ea d : ℚ) :
      s.error = none → s.flight_state = States.WAYPOINT →
      ¬ |s.target_position.alt - (-d)| < 2 →
      StepRel plan (Event.localPosition n ea d) s (setLocalPosition s n ea d, [])
  | positionOtherPhase (s : DroneState) (n ea d : ℚ) :
      s.error = none → s.flight_state ≠ States.TAKEOFF →
      s.flight_state ≠ States.WAYPOINT →
      StepRel plan (Event.localPosition n ea d) s (setLocalPosition s n ea d, [])
  | landingDone (s : DroneState) (vn ve vd : ℚ) :
      s.error = none → s.flight_state = States.LANDING →
      s.global_alt - s.global_home_alt < 1/10 →
      |s.lp_down| < 1/100 →
      StepRel plan (Event.velocity vn ve vd) s
        (disarming_transition (setLocalVelocity s vn ve vd))
  | landingWaitingAlt (s : DroneState) (vn ve vd : ℚ) :
      s.error = none → s.flight_state = States.LANDING →
      ¬ s.global_alt - s.global_home_alt < 1/10 →
      StepRel plan (Event.velocity vn ve vd) s (setLocalVelocity s vn ve vd, [])
  | landingWaitingPos (s : DroneState) (vn ve vd : ℚ) :
      s.error = none → s.flight_state = States.LANDING →
      s.global_alt - s.global_home_alt < 1/10 →
      ¬ |s.lp_down| < 1/100 →
      StepRel plan (Event.velocity vn ve vd) s (setLocalVelocity s vn ve vd, [])
  | velocityOtherPhase (s : DroneState) (vn ve vd : ℚ) :
      s.error = none → s.flight_state ≠ States.LANDING →
      StepRel plan (Event.velocity vn ve vd) s (setLocalVelocity s vn ve vd, [])
  | globalPos (s : DroneState) (a : ℚ) :
      s.error = none →
      StepRel plan (Event.globalPosition a) s ({ s with global_alt := a }, [])
  | statusManual (s : DroneState) (a g : Bool) :
      s.error = none → s.in_mission = true → s.flight_state = States.MANUAL →
      StepRel plan (Event.stateMsg a g) s (arming_transition (setStatus s a g))
  | statusArmingArmed (s : DroneState) (g : Bool) :
      s.error = none → s.in_mission = true → s.flight_state = States.ARMING →
      StepRel plan (Event.stateMsg true g) s (plan_path plan (setStatus s true g))
  | statusArmingWaiting (s : DroneState) (g : Bool) :
      s.error = none → s.in_mission = true → s.flight_state = States.ARMING →
      StepRel plan (Event.stateMsg false g) s (setStatus s false g, [])
  | statusPlanning (s : DroneState) (a g : Bool) :
      s.error = none → s.in_mission = true → s.flight_state = States.PLANNING →
      StepRel plan (Event.stateMsg a g) s (takeoff_transition (setStatus s a g))
  | statusDisarming (s : DroneState) (a g : Bool) :
      s.error = none → s.in_mission = true → s.flight_state = States.DISARMING →
      disarm_guard a g = true →
      StepRel plan (Event.stateMsg a g) s (manual_transition (setStatus s a g))
  | statusDisarmingWaiting (s : DroneState) (a g : Bool) :
      s.error = none → s.in_mission = true → s.flight_state = States.DISARMING →
      disarm_guard a g = false →
      StepRel plan (Event.stateMsg a g) s (setStatus s a g, [])
  | statusOtherPhase (s : DroneState) (a g : Bool) :
      s.error = none → s.in_mission = true →
      s.flight_state ≠ States.MANUAL → s.flight_state ≠ States.ARMING →
      s.flight_state ≠ States.PLANNING → s.flight_state ≠ States.DISARMING →
      StepRel plan (Event.stateMsg a g) s (setStatus s a g, [])
  | statusNoMission (s : DroneState) (a g : Bool) :
      s.error = none → s.in_mission = false →
      StepRel plan (Event.stateMsg a g) s (setStatus s a g, [])

/-- A run of the controller: the trace records, for each processed
telemetry event, the resulting flight phase and the commands emitted
while processing it. -/
inductive RunRel (plan : PlanOutcome) :
    DroneState → List Event → List (States × List Cmd) → Prop
  | nil (s : DroneState) : RunRel plan s [] []
  | cons (s : DroneState) (e : Event) (s' : DroneState) (c : List Cmd)
      (evs : List Event) (tr : List (States × List Cmd)) :
      StepRel plan e s (s', c) →
      RunRel plan s' evs tr →
      RunRel plan s (e :: evs) ((s'.flight_state, c) :: tr)

/-- Python `int(...)` of an exact integer is that integer. -/
theorem pyInt_intCast (n : ℤ) : pyInt (n : ℚ) = n := by
  have h : pyInt (n : ℚ) = Int.tdiv n 1 := by
    simp [pyInt, Rat.num_intCast, Rat.den_intCast]
  rw [h]
  cases n
  · simp [Int.tdiv]
  · simp [Int.tdiv, Int.negSucc_eq]

/-- C4: for every integer grid cell `c`, `local_to_grid (grid_to_local c) = c`,
whatever the (rational) grid offsets are — in particular for every cell
within the grid's index range. -/
theorem local_grid_round_trip (north_offset east_offset : ℚ) (c : ℤ × ℤ × ℤ) :
    local_to_grid north_offset east_offset
      (grid_to_local north_offset east_offset c) = c := by
  obtain ⟨n, e, a⟩ := c
  simp [local_to_grid, grid_to_local, add_sub_cancel_right, neg_neg, pyInt_intCast]

/-- C2: the claim is the code's evident intent but the code is wrong.  The
guard `~self.armed & ~self.guided` applies Python's bitwise complement to
booleans, giving `-2` or `-1`, whose bitwise conjunction is always
non-zero, hence always truthy: the guard holds for every combination of
`armed` and `guided`, so a status event arriving in `DISARMING` while the
vehicle still reports armed and guided transitions to `MANUAL` (and stops,
clearing the mission flag) instead of staying in `DISARMING` with no
action. -/
theorem disarming_guard_code_bug :
    (∀ a g, disarm_guard a g = true) ∧
    (step PlanOutcome.failure (Event.stateMsg true true) disarmingState).1.flight_state
      = States.MANUAL ∧
    (step PlanOutcome.failure (Event.stateMsg true true) disarmingState).1.in_mission
      = false ∧
    (step PlanOutcome.failure (Event.stateMsg true true) disarmingState).2
      = [Cmd.stop] := by
  refine ⟨by decide, ?_, ?_, ?_⟩ <;> rfl

/-- C3 counterexample: from the initial state, arm and then let the
planning pipeline fail.  The claim says the controller returns to
`Manual` with the mission flag cleared; the code has no failure handling
in `plan_path` or `state_callback`, so the controller is left in
`PLANNING` with the mission flag still set. -/
theorem planning_failure_counterexample :
    (runState PlanOutcome.failure initState
        [Event.stateMsg false false, Event.stateMsg true false]).flight_state
      = States.PLANNING ∧
    (runState PlanOutcome.failure initState
        [Event.stateMsg false false, Event.stateMsg true false]).flight_state
      ≠ States.MANUAL ∧
    (runState PlanOutcome.failure initState
        [Event.stateMsg false false, Event.stateMsg true false]).in_mission
      = true := by
  refine ⟨rfl, by decide, rfl⟩

/-- C3 amended: when the planning pipeline fails, the controller does
not return to `MANUAL` and does not clear the mission flag — `plan_path`
contains no error handling, so the failure leaves the controller in
`PLANNING` (mission flag still set, waypoint queue untouched) with the
uncaught exception recorded, and no waypoints are dispatched (no commands
are emitted at all). -/
theorem planning_failure_stays_planning (g : Bool) (s : DroneState)
    (herr : s.error = none) (hm : s.in_mission = true)
    (hf : s.flight_state = States.ARMING) :
    step PlanOutcome.failure (Event.stateMsg true g) s =
      ({ s with armed := true, guided := g,
                flight_state := States.PLANNING,
                target_position := { s.target_position with alt := TARGET_ALTITUDE },
                global_home_alt := 0,
                error := some PyErr.planningFailure }, []) := by
  simp [step, herr, state_callback, hm, hf, plan_path]

/-- C3 amended, witnessed at a concrete armed controller state. -/
theorem planning_failure_stays_planning_witness :
    step PlanOutcome.failure (Event.stateMsg true false)
        { initState with flight_state := States.ARMING } =
      ({ initState with
          armed := true, guided := false,
          flight_state := States.PLANNING,
          target_position := { initState.target_position with alt := TARGET_ALTITUDE },
          global_home_alt := 0,
          error := some PyErr.planningFailure }, []) :=
  planning_failure_stays_planning false
    { initState with flight_state := States.ARMING } rfl rfl rfl

/-- C8: with an empty waypoint list produced by planning, the
altitude-reached position event in `TAKEOFF` drives `waypoint_transition`
into `self.waypoints.pop(0)` on an empty list: the `IndexError` branch is
reachable from the initial state by a concrete telemetry sequence (arm,
armed-confirmed, planning-complete, then a position report above
`0.95 * TARGET_ALTITUDE`). -/
theorem empty_queue_pop_reachable :
    (runState (PlanOutcome.success []) initState
        [Event.stateMsg true false, Event.stateMsg true false,
         Event.stateMsg true false, Event.localPosition 0 0 (-6)]).error
      = some PyErr.indexError ∧
    (runState (PlanOutcome.success []) initState
        [Event.stateMsg true false, Event.stateMsg true false,
         Event.stateMsg true false, Event.localPosition 0 0 (-6)]).flight_state
      = States.WAYPOINT := by
  constructor <;> with_unfolding_all decide

/-- C10: the mission flag is set in `__init__`, and the first status
event processed in `MANUAL` runs `arming_transition`: `arm()` then
`take_control()` are commanded, in that order, and the phase becomes
`ARMING` — no external start signal is consulted. -/
theorem first_state_event_arms (plan : PlanOutcome) (a g : Bool) :
    initState.in_mission = true ∧
    step plan (Event.stateMsg a g) initState =
      ({ initState with armed := a, guided := g, flight_state := States.ARMING },
        [Cmd.arm, Cmd.takeControl]) := by
  exact ⟨rfl, rfl⟩

/-- C1: a position event processed in `WAYPOINT` whose horizontal error
is below 3.0 m and vertical error below 2.0 m (both stated in squared /
absolute-value form over the rationals) pops and commands the next
waypoint when the queue is non-empty, staying in `WAYPOINT`; lands and
enters `LANDING` when the queue is empty and the horizontal speed is
below 1.0 m/s; and does nothing (no transition, no command) when the
queue is empty and the speed is not below 1.0 m/s. -/
theorem waypoint_arrival_behavior (plan : PlanOutcome) (s : DroneState) (n ea d : ℚ)
    (herr : s.error = none)
    (hf : s.flight_state = States.WAYPOINT)
    (hh : normSq (s.target_position.north - n) (s.target_position.east - ea) < 3 * 3)
    (hv : |s.target_position.alt - (-d)| < 2) :
    (∀ w rest, s.waypoints = w :: rest →
      step plan (Event.localPosition n ea d) s =
        ({ s with
            lp_north := n, lp_east := ea, lp_down := d,
            flight_state := States.WAYPOINT,
            waypoints := rest, target_position := w },
          [Cmd.cmdPosition w.north w.east w.alt w.heading])) ∧
    (s.waypoints = [] → normSq s.lv_north s.lv_east < 1 * 1 →
      step plan (Event.localPosition n ea d) s =
        ({ s with
            lp_north := n, lp_east := ea, lp_down := d,
            flight_state := States.LANDING },
          [Cmd.land])) ∧
    (s.waypoints = [] → ¬ normSq s.lv_north s.lv_east < 1 * 1 →
      step plan (Event.localPosition n ea d) s =
        ({ s with lp_north := n, lp_east := ea, lp_down := d }, [])) := by
  have hv' : |s.target_position.alt + d| < 2 := by rwa [sub_neg_eq_add] at hv
  refine ⟨fun w rest hw => ?_, fun hw hsp => ?_, fun hw hsp => ?_⟩
  · simp [step, herr, local_position_callback, hf, hh, hv', hw, waypoint_transition]
  · have hsp' : normSq s.lv_north s.lv_east < 1 := by simpa using hsp
    simp [step, herr, local_position_callback, hf, hh, hv', hw,
      landing_transition, hsp']
  · have hsp' : ¬ normSq s.lv_north s.lv_east < 1 := by simpa using hsp
    simp [step, herr, local_position_callback, hf, hh, hv', hw, hsp']

/-- C1, witnessed: a controller in `WAYPOINT` with one queued waypoint and
a position report inside both error bounds pops it and commands it. -/
theorem waypoint_arrival_behavior_witness :
    step (PlanOutcome.success []) (Event.localPosition 10 10 (-5))
        { initState with
            flight_state := States.WAYPOINT,
            target_position := ⟨11, 10, 5, Heading.zero⟩,
            waypoints := [⟨20, 20, 5, Heading.atan2 10 9⟩] } =
      ({ initState with
          flight_state := States.WAYPOINT,
          target_position := ⟨20, 20, 5, Heading.atan2 10 9⟩,
          waypoints := [],
          lp_north := 10, lp_east := 10, lp_down := -5 },
        [Cmd.cmdPosition 20 20 5 (Heading.atan2 10 9)]) := by
  have h := (waypoint_arrival_behavior (PlanOutcome.success [])
      { initState with
          flight_state := States.WAYPOINT,
          target_position := ⟨11, 10, 5, Heading.zero⟩,
          waypoints := [⟨20, 20, 5, Heading.atan2 10 9⟩] }
      10 10 (-5) rfl rfl
      (by with_unfolding_all decide) (by with_unfolding_all decide)).1
      ⟨20, 20, 5, Heading.atan2 10 9⟩ [] rfl
  exact h.trans (by with_unfolding_all decide)

/-- C5 counterexample: with target altitude 20, a position report at
altitude exactly 19 = 0.95 × 20 satisfies the claim's non-strict `≥`
guard, yet the code's strict comparison
`-1.0*local_position[2] > 0.95*target_position[2]` fails, so no
transition occurs and no command is emitted: the controller stays in
`TAKEOFF` with its queue untouched. -/
theorem takeoff_threshold_counterexample :
    -((-19 : ℚ)) ≥ (19/20) * c5State.target_position.alt ∧
    step (PlanOutcome.success []) (Event.localPosition 0 0 (-19)) c5State
      = ({ c5State with lp_north := 0, lp_east := 0, lp_down := -19 }, []) := by
  constructor <;> with_unfolding_all decide

/-- C5 amended: in `TAKEOFF`, the transition to `WAYPOINT` (pop the next
waypoint and command it) happens exactly when the current altitude is
strictly greater than 0.95 × the target altitude; at or below that
threshold nothing happens. -/
theorem takeoff_threshold_strict (plan : PlanOutcome) (s : DroneState) (n ea d : ℚ)
    (herr : s.error = none)
    (hf : s.flight_state = States.TAKEOFF) :
    (∀ w rest, s.waypoints = w :: rest →
      (19/20) * s.target_position.alt < -1 * d →
      step plan (Event.localPosition n ea d) s =
        ({ s with
            lp_north := n, lp_east := ea, lp_down := d,
            flight_state := States.WAYPOINT,
            waypoints := rest, target_position := w },
          [Cmd.cmdPosition w.north w.east w.alt w.heading])) ∧
    (¬ (19/20) * s.target_position.alt < -1 * d →
      step plan (Event.localPosition n ea d) s =
        ({ s with lp_north := n, lp_east := ea, lp_down := d }, [])) := by
  refine ⟨fun w rest hw hgt => ?_, fun hgt => ?_⟩
  · have hgt' : (19/20) * s.target_position.alt < -d := by rwa [neg_one_mul] at hgt
    simp [step, herr, local_position_callback, hf, hgt', hw, waypoint_transition]
  · have hgt' : ¬ (19/20) * s.target_position.alt < -d := by rwa [neg_one_mul] at hgt
    simp [step, herr, local_position_callback, hf, hgt']

/-- C5 amended, witnessed: altitude 20 strictly above the 19 threshold
triggers the pop-and-command transition. -/
theorem takeoff_threshold_strict_witness :
    step (PlanOutcome.success []) (Event.localPosition 0 0 (-20)) c5State =
      ({ c5State with
          lp_north := 0, lp_east := 0, lp_down := -20,
          flight_state := States.WAYPOINT,
          waypoints := [],
          target_position := ⟨1, 1, 5, Heading.zero⟩ },
        [Cmd.cmdPosition 1 1 5 Heading.zero]) := by
  have h := (takeoff_threshold_strict (PlanOutcome.success []) c5State
      0 0 (-20) rfl rfl).1 ⟨1, 1, 5, Heading.zero⟩ [] rfl
      (by with_unfolding_all decide)
  exact h.trans (by with_unfolding_all decide)

/-- C9: once the `DISARMING` → `MANUAL` transition has cleared the
mission flag, every further telemetry event of any kind leaves the
flight phase at `MANUAL` and emits no command: `state_callback` is gated
on `in_mission`, and the position/velocity callbacks act only in the
`TAKEOFF`, `WAYPOINT` and `LANDING` phases. -/
theorem mission_complete_inert (plan : PlanOutcome) (e : Event) (s : DroneState)
    (hf : s.flight_state = States.MANUAL)
    (hm : s.in_mission = false) :
    (step plan e s).1.flight_state = States.MANUAL ∧ (step plan e s).2 = [] := by
  by_cases herr : s.error.isSome
  · simp [step, herr, hf]
  · cases e <;>
      simp [step, herr, local_position_callback, velocity_callback,
        state_callback, hf, hm]

/-- C9, witnessed at a post-mission controller fed a position event. -/
theorem mission_complete_inert_witness :
    (step (PlanOutcome.success []) (Event.localPosition 1 2 3)
        { initState with in_mission := false }).1.flight_state = States.MANUAL ∧
    (step (PlanOutcome.success []) (Event.localPosition 1 2 3)
        { initState with in_mission := false }).2 = [] :=
  mission_complete_inert (PlanOutcome.success []) (Event.localPosition 1 2 3)
    { initState with in_mission := false } rfl rfl

/-- Evaluation of `path_to_waypoints` at a valid index, mirroring its
loop body. -/
theorem path_to_waypoints_getD (north_offset east_offset : ℤ)
    (path : List (ℤ × ℤ × ℤ)) (i : ℕ) (h : i < path.length) :
    (path_to_waypoints north_offset east_offset path).getD i default =
      { north := (((path.getD i (0, 0, 0)).1 + north_offset : ℤ) : ℚ)
        east := (((path.getD i (0, 0, 0)).2.1 + east_offset : ℤ) : ℚ)
        alt := ((path.getD i (0, 0, 0)).2.2 : ℚ)
        heading :=
          if i > 0 then
            Heading.atan2
              ((path.getD i (0, 0, 0)).2.1 - (path.getD (i - 1) (0, 0, 0)).2.1)
              ((path.getD i (0, 0, 0)).1 - (path.getD (i - 1) (0, 0, 0)).1)
          else Heading.zero } := by
  simp [path_to_waypoints, List.getD_eq_getElem?_getD, List.getElem?_map,
    List.getElem?_range h]

/-- C6: for a non-empty path, the generated waypoint list has one
waypoint per path point; waypoint `i` carries the path point's north and
east indices shifted by the grid offsets and its altitude unchanged, and
its heading is the literal zero for `i = 0` and
`atan2(east displacement, north displacement)` from point `i-1` to point
`i` otherwise. -/
theorem path_to_waypoints_spec (north_offset east_offset : ℤ)
    (path : List (ℤ × ℤ × ℤ)) (i : ℕ) (h : i < path.length) :
    (path_to_waypoints north_offset east_offset path).length = path.length ∧
    (path_to_waypoints north_offset east_offset path).getD i default =
      { north := (((path.getD i (0, 0, 0)).1 + north_offset : ℤ) : ℚ)
        east := (((path.getD i (0, 0, 0)).2.1 + east_offset : ℤ) : ℚ)
        alt := ((path.getD i (0, 0, 0)).2.2 : ℚ)
        heading :=
          if i = 0 then Heading.zero
          else
            Heading.atan2
              ((path.getD i (0, 0, 0)).2.1 - (path.getD (i - 1) (0, 0, 0)).2.1)
              ((path.getD i (0, 0, 0)).1 - (path.getD (i - 1) (0, 0, 0)).1) } := by
  refine ⟨by simp [path_to_waypoints], ?_⟩
  rw [path_to_waypoints_getD north_offset east_offset path i h]
  by_cases hi : i = 0
  · simp [hi]
  · simp [hi, Nat.pos_of_ne_zero hi]

/-- C6, witnessed on the two-point path `[(0,0,5), (3,4,5)]` with grid
offsets `(-10, -20)`: the second waypoint is `(-7, -16, 5)` with heading
`atan2 4 3`. -/
theorem path_to_waypoints_spec_witness :
    (path_to_waypoints (-10) (-20) [(0, 0, 5), (3, 4, 5)]).length = 2 ∧
    (path_to_waypoints (-10) (-20) [(0, 0, 5), (3, 4, 5)]).getD 1 default =
      { north := -7, east := -16, alt := 5, heading := Heading.atan2 4 3 } := by
  have h := path_to_waypoints_spec (-10) (-20) [(0, 0, 5), (3, 4, 5)] 1 (by decide)
  exact ⟨h.1.trans (by decide), h.2.trans (by with_unfolding_all decide)⟩

/-- The transition relation agrees with the functional embedding. -/
theorem stepRel_sound {plan : PlanOutcome} {e : Event} {s : DroneState}
    {out : DroneState × List Cmd} (h : StepRel plan e s out) :
    out = step plan e s := by
  cases h <;>
    simp_all [step, local_position_callback, velocity_callback, state_callback,
      setLocalPosition, setLocalVelocity, setStatus] <;>
    first
      | rfl
      | (split_ifs <;> first | rfl | (exfalso; linarith))

/-- The transition relation is deterministic at each event. -/
theorem stepRel_det {plan : PlanOutcome} {e : Event} {s : DroneState}
    {o1 o2 : DroneState × List Cmd}
    (h1 : StepRel plan e s o1) (h2 : StepRel plan e s o2) : o1 = o2 :=
  (stepRel_sound h1).trans (stepRel_sound h2).symm

/-- C7: the controller is deterministic — two runs from the same state on
the identical event sequence (with the same planning inputs) produce the
identical sequence of flight phases and emitted commands. -/
theorem controller_deterministic {plan : PlanOutcome} {s : DroneState}
    {evs : List Event} {tr1 tr2 : List (States × List Cmd)}
    (h1 : RunRel plan s evs tr1) (h2 : RunRel plan s evs tr2) : tr1 = tr2 := by
  induction h1 generalizing tr2 with
  | nil s => cases h2; rfl
  | cons s e s' c evs tr hstep hrun ih =>
      cases h2 with
      | cons _ _ s2 c2 _ tr2' hstep2 hrun2 =>
          have hpair := stepRel_det hstep hstep2
          have hs : s' = s2 := congrArg Prod.fst hpair
          have hc : c = c2 := congrArg Prod.snd hpair
          subst hs; subst hc
          rw [ih hrun2]

/-- C7, witnessed: a one-event run from the initial state has the unique
trace arming trace, whichever of the two derivations is used. -/
theorem controller_deterministic_witness :
    [(States.ARMING, [Cmd.arm, Cmd.takeControl])]
      = [(States.ARMING, [Cmd.arm, Cmd.takeControl])] :=
  have hstep : StepRel (PlanOutcome.success []) (Event.stateMsg true false) initState
      (arming_transition (setStatus initState true false)) :=
    StepRel.statusManual initState true false rfl rfl rfl
  controller_deterministic
    (RunRel.cons _ _ _ _ _ _ hstep (RunRel.nil _))
    (RunRel.cons _ _ _ _ _ _ hstep (RunRel.nil _))

end MotionPlanningPy
